import Mathlib

/-!
Verification of the MAX14906 register-access layer
(`src/drivers/digital-io/max14906/max14906.c`).

The driver is shallowly embedded: machine integers become `Nat` with explicit
masking where the C code truncates, the per-descriptor scratch buffer becomes a
fixed three-byte record, the SPI transport becomes an explicit `Transport`
value stepped on each transfer, and every driver function is a pure function
from a descriptor/world state to a result and a new state.  Calls into the
transport and GPIO collaborators are recorded as events in a trace so that
claims about issued transfers and their ordering can be stated.
-/

/-- Error code `EINVAL` from `errno.h` (the driver returns `-EINVAL`). -/
def EINVAL : Int := 22

/-- Error code `ENODEV` from `errno.h` (the driver returns `-ENODEV`). -/
def ENODEV : Int := 19

/-- Error code `ENOMEM` from `errno.h` (the driver returns `-ENOMEM`). -/
def ENOMEM : Int := 12

/-- Error code `EIO`; used by the model when a scripted transport runs dry. -/
def EIOC : Int := 5

/-- Modelled from the spec: `NO_OS_BIT(n)` from `no_os_util.h` (not under
`src/`), a single set bit at position `n`. -/
def NO_OS_BIT (n : Nat) : Nat := 1 <<< n

/-- Modelled from the spec: `NO_OS_GENMASK(h, l)` from `no_os_util.h` (not
under `src/`), a contiguous mask of set bits from position `l` to `h`. -/
def NO_OS_GENMASK (h l : Nat) : Nat := ((1 <<< (h + 1)) - 1) ^^^ ((1 <<< l) - 1)

/-- Fuel-driven helper for the index of the lowest set bit. -/
def ffsAux (fuel n : Nat) : Nat :=
  match fuel with
  | 0 => 0
  | f + 1 => if n % 2 = 1 then 0 else ffsAux f (n / 2) + 1

/-- Modelled from the spec: `no_os_find_first_set_bit` from `no_os_util.h`
(not under `src/`), the index of the lowest set bit of a nonzero mask. -/
def no_os_find_first_set_bit (n : Nat) : Nat := ffsAux n n

/-- Modelled from the spec: `no_os_field_prep(mask, val)` from `no_os_util.h`
(not under `src/`): shift `val` to the mask's field position and mask it. -/
def no_os_field_prep (mask val : Nat) : Nat :=
  (val <<< no_os_find_first_set_bit mask) &&& mask

/-- Modelled from the spec: `no_os_field_get(mask, reg)` from `no_os_util.h`
(not under `src/`): extract the field selected by `mask` from `reg`. -/
def no_os_field_get (mask reg : Nat) : Nat :=
  (reg &&& mask) >>> no_os_find_first_set_bit mask

/-- Modelled from the spec: `MAX14906_FRAME_SIZE` from `max14906.h` (not under
`src/`); the SPI frame is two bytes before the optional CRC byte. -/
def MAX14906_FRAME_SIZE : Nat := 2

/-- Modelled from the spec: `MAX14906_CHANNELS` from `max14906.h` (not under
`src/`); the device has four channels. -/
def MAX14906_CHANNELS : Nat := 4

/-- Modelled from the spec: the 2-bit chip-address field of the command byte
(`max14906.h` is not under `src/`; the spec's wire format places it above the
5-bit register address and the RW bit). -/
def MAX14906_CHIP_ADDR_MASK : Nat := NO_OS_GENMASK 7 6

/-- Modelled from the spec: the 5-bit register-address field of the command
byte. -/
def MAX14906_ADDR_MASK : Nat := NO_OS_GENMASK 5 1

/-- Modelled from the spec: the RW bit of the command byte (1 = write). -/
def MAX14906_RW_MASK : Nat := NO_OS_BIT 0

/-- Modelled from the spec: `SETOUT` register address (direction bits in the
high nibble, high-side output bits in the low nibble). -/
def MAX14906_SETOUT_REG : Nat := 0x0

/-- Modelled from the spec: `DOILEVEL` register address (per-channel voltage
level bits). -/
def MAX14906_DOILEVEL_REG : Nat := 0x2

/-- Modelled from the spec: latched-fault register `OVR_LD`. -/
def MAX14906_OVR_LD_REG : Nat := 0x4

/-- Modelled from the spec: latched-fault register `OPN_WIR_FLT`. -/
def MAX14906_OPN_WIR_FLT_REG : Nat := 0x5

/-- Modelled from the spec: latched-fault register `SHD_VDD_FLT`. -/
def MAX14906_SHD_VDD_FLT_REG : Nat := 0x6

/-- Modelled from the spec: latched-fault register `GLOBAL_FLT`. -/
def MAX14906_GLOBAL_FLT_REG : Nat := 0x7

/-- Modelled from the spec: `CONFIG_DO` register address (2-bit output-mode
field per channel). -/
def MAX14906_CONFIG_DO_REG : Nat := 0xA

/-- Modelled from the spec: `CONFIG_CURR_LIM` register address (2-bit current
limit field per channel). -/
def MAX14906_CONFIG_CURR_LIM : Nat := 0xB

/-- Modelled from the spec: per-channel level bit in `DOILEVEL`. -/
def MAX14906_DOI_LEVEL_MASK (ch : Nat) : Nat := NO_OS_BIT ch

/-- Modelled from the spec: per-channel high-side output bit in `SETOUT`. -/
def MAX14906_HIGHO_MASK (ch : Nat) : Nat := NO_OS_BIT ch

/-- Modelled from the spec: per-channel direction bit in `SETOUT` (high
nibble). -/
def MAX14906_CH_DIR_MASK (ch : Nat) : Nat := NO_OS_BIT (ch + 4)

/-- Modelled from the spec: per-channel 2-bit output-mode field in
`CONFIG_DO`. -/
def MAX14906_DO_MASK (ch : Nat) : Nat := NO_OS_GENMASK (2 * ch + 1) (2 * ch)

/-- Modelled from the spec: per-channel 2-bit current-limit field in
`CONFIG_CURR_LIM`. -/
def MAX14906_CL_MASK (ch : Nat) : Nat := NO_OS_GENMASK (2 * ch + 1) (2 * ch)

/-- Modelled from the spec: output-mode value "push-pull" used by the high-z
transition. -/
def MAX14906_PUSH_PULL : Nat := 3

/-- Modelled from the spec: output-mode value "high-side" used by the input
transition. -/
def MAX14906_HIGH_SIDE : Nat := 0

/-- Modelled from the spec: GPIO logical high level. -/
def NO_OS_GPIO_HIGH : Nat := 1

/-- Modelled from the spec: GPIO high-impedance state used by `remove`. -/
def NO_OS_GPIO_HIGH_Z : Nat := 2

/-- `enum max14906_function`: channel function values `MAX14906_OUT`,
`MAX14906_IN`, `MAX14906_HIGH_Z` (modelled from the spec; `max14906.h` is not
under `src/`). -/
inductive max14906_function where
  | out
  | inp
  | high_z
deriving DecidableEq

/-- The integer value the C enum `max14906_function` carries. -/
def max14906_function.toNat : max14906_function → Nat
  | .out => 0
  | .inp => 1
  | .high_z => 2

/-- `enum max14906_climit`: the discrete current-limit levels (modelled from
the spec; 130 mA is the smallest current). -/
inductive max14906_climit where
  | cl_600
  | cl_130
  | cl_300
  | cl_1300
deriving DecidableEq

/-- The integer value the C enum `max14906_climit` carries. -/
def max14906_climit.toNat : max14906_climit → Nat
  | .cl_600 => 0
  | .cl_130 => 1
  | .cl_300 => 2
  | .cl_1300 => 3

/-- One step of the bit-serial CRC5 loop body shared by the three loops of
`max14906_crc_encode` and `max14906_crc_decode` (max14906.c lines 65-90):
compare the incoming data bit with the top bit of the 5-bit remainder, shift,
and conditionally xor the polynomial `0x15`. -/
def max14906_crc_step (crc5_result data_bit : Nat) : Nat :=
  let result_bit := (crc5_result &&& 0x10) >>> 4
  if data_bit ^^^ result_bit ≠ 0 then
    0x15 ^^^ ((crc5_result <<< 1) &&& 0x1f)
  else
    (crc5_result <<< 1) &&& 0x1f

/-- `max14906_crc_encode` (max14906.c lines 51-93): CRC5 over all 8 bits of
`data[0]` MSB-first, then all 8 bits of `data[1]` MSB-first, then 3 bits of a
zero extra byte, starting from `0x1f`. -/
def max14906_crc_encode (d0 d1 : Nat) : Nat :=
  let r1 := (List.range 8).foldl
    (fun crc i => max14906_crc_step crc ((d0 >>> (7 - i)) &&& 0x01)) 0x1f
  let r2 := (List.range 8).foldl
    (fun crc i => max14906_crc_step crc ((d1 >>> (7 - i)) &&& 0x01)) r1
  (List.range 3).foldl
    (fun crc i => max14906_crc_step crc (((0 : Nat) >>> (7 - i)) &&& 0x01)) r2

/-- `max14906_crc_decode` (max14906.c lines 100-141): same division, but the
first loop runs `i = 2 .. 7`, so only bits `7 - i` for `i ∈ [2, 8)` of
`data[0]` are processed. -/
def max14906_crc_decode (d0 d1 : Nat) : Nat :=
  let r1 := (List.range' 2 6).foldl
    (fun crc i => max14906_crc_step crc ((d0 >>> (7 - i)) &&& 0x01)) 0x1f
  let r2 := (List.range 8).foldl
    (fun crc i => max14906_crc_step crc ((d1 >>> (7 - i)) &&& 0x01)) r1
  (List.range 3).foldl
    (fun crc i => max14906_crc_step crc (((0 : Nat) >>> (7 - i)) &&& 0x01)) r2

/-- The descriptor's three-byte scratch buffer `uint8_t buff[3]`. -/
structure Buf where
  b0 : Nat
  b1 : Nat
  b2 : Nat
deriving DecidableEq

/-- `memset(buff, 0, n)` on the three-byte scratch buffer. -/
def Buf.memset0 (b : Buf) (n : Nat) : Buf :=
  { b0 := if 0 < n then 0 else b.b0
    b1 := if 1 < n then 0 else b.b1
    b2 := if 2 < n then 0 else b.b2 }

/-- The transport writing `n` received bytes into the shared rx buffer. -/
def Buf.writeRx (b : Buf) (rx : List Nat) (n : Nat) : Buf :=
  { b0 := if 0 < n then rx.getD 0 0 else b.b0
    b1 := if 1 < n then rx.getD 1 0 else b.b1
    b2 := if 2 < n then rx.getD 2 0 else b.b2 }

/-- The first `n` bytes of the scratch buffer, as sent on the wire. -/
def Buf.tx (b : Buf) (n : Nat) : List Nat := [b.b0, b.b1, b.b2].take n

/-- One `struct no_os_spi_msg`: payload bytes, transfer length, and the
chip-select-change flag; `hasRx` records whether `rx_buff` was set (the read
path sets both `tx_buff` and `rx_buff` to the scratch buffer). -/
structure SpiMsg where
  tx : List Nat
  bytesNumber : Nat
  csChange : Nat
  hasRx : Bool
deriving DecidableEq

/-- Outcome of one scripted transfer: a transport error code or the bytes the
device clocks back. -/
inductive SpiOutcome where
  | fail (e : Int)
  | ok (rx : List Nat)
deriving DecidableEq

/-- The SPI collaborator.  `script` replays a fixed list of outcomes (a test
double for arbitrary transport behaviour); `regfile` is the spec's in-memory
register-file stub with honest read/write semantics, answering reads from the
register array and computing the response CRC the way the device would. -/
inductive Transport where
  | script (resps : List SpiOutcome)
  | regfile (regs : List Nat)
deriving DecidableEq

/-- Step the transport on one message: returns the C return code of
`no_os_spi_transfer`, the received bytes (if any), and the next transport
state.  Modelled from the spec for the `regfile` test double. -/
def Transport.step : Transport → SpiMsg → Int × Option (List Nat) × Transport
  | .script [], _ => (-EIOC, none, .script [])
  | .script (.fail e :: rest), _ => (e, none, .script rest)
  | .script (.ok r :: rest), _ => (0, some r, .script rest)
  | .regfile regs, m =>
    let b0 := m.tx.getD 0 0
    let addr := no_os_field_get MAX14906_ADDR_MASK b0
    if b0 &&& MAX14906_RW_MASK = 1 then
      (0, none, .regfile (regs.set addr (m.tx.getD 1 0)))
    else
      let v := regs.getD addr 0
      (0, some [0, v, max14906_crc_decode 0 v], .regfile regs)

/-- Observable events: SPI transfers plus the lifecycle collaborator calls
made by `max14906_init` and `max14906_remove`. -/
inductive Ev where
  | xfer (m : SpiMsg)
  | spiInitEv
  | gpioGetEv
  | gpioSetEv (v : Nat)
  | gpioRemoveEv
  | spiRemoveEv
  | freeEv
deriving DecidableEq

/-- `struct max14906_desc` together with the world it acts on: the CRC flag,
chip address and scratch buffer from the C struct, whether the optional enable
GPIO handle is non-null, the SPI transport state, and the event trace. -/
structure Drv where
  crc_en : Bool
  chip_address : Nat
  buff : Buf
  enable : Bool
  tp : Transport
  trace : List Ev
deriving DecidableEq

/-- `no_os_spi_transfer(desc->comm_desc, &xfer, 1)`: step the transport,
write any received bytes into the shared buffer, and record the transfer. -/
def no_os_spi_transfer (st : Drv) (msg : SpiMsg) : Int × Drv :=
  let r := st.tp.step msg
  (r.1,
    { st with
      tp := r.2.2
      buff := match r.2.1, msg.hasRx with
        | some rx, true => st.buff.writeRx rx msg.bytesNumber
        | _, _ => st.buff
      trace := st.trace ++ [Ev.xfer msg] })

/-- `max14906_reg_write` (max14906.c lines 150-168). -/
def max14906_reg_write (st : Drv) (addr val : Nat) : Int × Drv :=
  let b0 := no_os_field_prep MAX14906_CHIP_ADDR_MASK st.chip_address |||
            no_os_field_prep MAX14906_ADDR_MASK addr |||
            no_os_field_prep MAX14906_RW_MASK 1
  let buff := { st.buff with b0 := b0, b1 := val % 256 }
  let n := if st.crc_en then MAX14906_FRAME_SIZE + 1 else MAX14906_FRAME_SIZE
  let buff := if st.crc_en then
      { buff with b2 := max14906_crc_encode buff.b0 buff.b1 }
    else buff
  no_os_spi_transfer { st with buff := buff }
    { tx := buff.tx n, bytesNumber := n, csChange := 1, hasRx := false }

/-- `max14906_reg_read` (max14906.c lines 178-213).  The C output pointer
`val` is modelled by threading its current contents `val0` through: the
returned pair is `(return code, contents of *val after the call)`. -/
def max14906_reg_read (st : Drv) (addr : Nat) (val0 : Nat) :
    (Int × Nat) × Drv :=
  let n := if st.crc_en then MAX14906_FRAME_SIZE + 1 else MAX14906_FRAME_SIZE
  let buff := st.buff.memset0 n
  let buff := { buff with
    b0 := no_os_field_prep MAX14906_CHIP_ADDR_MASK st.chip_address |||
          no_os_field_prep MAX14906_ADDR_MASK addr |||
          no_os_field_prep MAX14906_RW_MASK 0 }
  let buff := if st.crc_en then
      { buff with b2 := max14906_crc_encode buff.b0 buff.b1 }
    else buff
  let r := no_os_spi_transfer { st with buff := buff }
    { tx := buff.tx n, bytesNumber := n, csChange := 1, hasRx := true }
  if r.1 ≠ 0 then ((r.1, val0), r.2)
  else if r.2.crc_en then
    let crc := max14906_crc_decode r.2.buff.b0 r.2.buff.b1
    if crc ≠ r.2.buff.b2 then ((-EINVAL, val0), r.2)
    else ((0, r.2.buff.b1), r.2)
  else ((0, r.2.buff.b1), r.2)

/-- The 32-bit all-ones mask; `~mask` on a `uint32_t` is `U32MASK ^^^ mask`. -/
def U32MASK : Nat := 0xFFFFFFFF

/-- `max14906_reg_update` (max14906.c lines 224-238): read, clear the masked
bits, or in `mask & val`, write back. -/
def max14906_reg_update (st : Drv) (addr mask val : Nat) : Int × Drv :=
  let r := max14906_reg_read st addr 0
  if r.1.1 ≠ 0 then (r.1.1, r.2)
  else
    let reg_val := r.1.2 &&& (U32MASK ^^^ mask)
    let reg_val := reg_val ||| (mask &&& val)
    max14906_reg_write r.2 addr reg_val

/-- `max14906_ch_get` (max14906.c lines 247-261). -/
def max14906_ch_get (st : Drv) (ch : Nat) (val0 : Nat) : (Int × Nat) × Drv :=
  if ch ≥ MAX14906_CHANNELS then ((-EINVAL, val0), st)
  else
    let r := max14906_reg_read st MAX14906_DOILEVEL_REG val0
    if r.1.1 ≠ 0 then ((r.1.1, r.1.2), r.2)
    else ((0, no_os_field_get (MAX14906_DOI_LEVEL_MASK ch) r.1.2), r.2)

/-- `max14906_ch_set` (max14906.c lines 270-278). -/
def max14906_ch_set (st : Drv) (ch val : Nat) : Int × Drv :=
  if ch ≥ MAX14906_CHANNELS then (-EINVAL, st)
  else
    max14906_reg_update st MAX14906_SETOUT_REG (MAX14906_HIGHO_MASK ch)
      (if val ≠ 0 then MAX14906_HIGHO_MASK ch else 0)

/-- `max14906_ch_func` (max14906.c lines 287-314). -/
def max14906_ch_func (st : Drv) (ch : Nat) (f : max14906_function) :
    Int × Drv :=
  if f = .high_z then
    let r := max14906_reg_update st MAX14906_CONFIG_DO_REG (MAX14906_DO_MASK ch)
      (no_os_field_prep (MAX14906_DO_MASK ch) MAX14906_PUSH_PULL)
    if r.1 ≠ 0 then r
    else
      max14906_reg_update r.2 MAX14906_SETOUT_REG (MAX14906_CH_DIR_MASK ch)
        (no_os_field_prep (MAX14906_CH_DIR_MASK ch) 1)
  else if f = .inp then
    let r := max14906_reg_update st MAX14906_CONFIG_DO_REG (MAX14906_DO_MASK ch)
      (no_os_field_prep (MAX14906_DO_MASK ch) MAX14906_HIGH_SIDE)
    if r.1 ≠ 0 then r
    else
      max14906_reg_update r.2 MAX14906_SETOUT_REG (MAX14906_CH_DIR_MASK ch)
        (no_os_field_prep (MAX14906_CH_DIR_MASK ch) f.toNat)
  else
    max14906_reg_update st MAX14906_SETOUT_REG (MAX14906_CH_DIR_MASK ch)
      (no_os_field_prep (MAX14906_CH_DIR_MASK ch) f.toNat)

/-- `max14906_climit_set` (max14906.c lines 323-328); note there is no channel
bounds check in the source. -/
def max14906_climit_set (st : Drv) (ch : Nat) (climit : max14906_climit) :
    Int × Drv :=
  max14906_reg_update st MAX14906_CONFIG_CURR_LIM (MAX14906_CL_MASK ch)
    (no_os_field_prep (MAX14906_CL_MASK ch) climit.toNat)

/-- `max14906_climit_get` (max14906.c lines 337-353).  The C output pointer is
modelled by `ptrNull` (whether the caller passed NULL) and `cl0` (its current
contents); there is no channel bounds check in the source. -/
def max14906_climit_get (st : Drv) (ch : Nat) (ptrNull : Bool) (cl0 : Nat) :
    (Int × Nat) × Drv :=
  if ptrNull then ((-EINVAL, cl0), st)
  else
    let r := max14906_reg_read st MAX14906_CONFIG_CURR_LIM 0
    if r.1.1 ≠ 0 then ((r.1.1, cl0), r.2)
    else ((0, no_os_field_get (MAX14906_CL_MASK ch) r.1.2), r.2)

/-- MSB-first bit window of one byte: bits `7 - i` for `i ∈ [start, 8)`.
`byteBitsMSB b 0` is all eight bits, most significant first; `byteBitsMSB b 2`
drops the first two MSB-first positions (the two most significant bits). -/
def byteBitsMSB (b : Nat) (start : Nat) : List Nat :=
  ((List.range 8).drop start).map fun i => (b >>> (7 - i)) &&& 1

/-- Modelled from the spec: the generic bit-serial CRC5 polynomial division
over a bit stream, start value `0x1f`, polynomial `0x15`. -/
def crc5_serial_div (bits : List Nat) : Nat := bits.foldl max14906_crc_step 0x1f

/-- Modelled from the spec: the decode variant as claim C2 words it, namely
"skipping the two low CRC-irrelevant bits" of the command byte, i.e.
processing bits 7..2 MSB-first and omitting bits 1 and 0. -/
def crc5_decode_skip_low (d0 d1 : Nat) : Nat :=
  crc5_serial_div
    (((List.range 6).map fun i => (d0 >>> (7 - i)) &&& 1) ++
      byteBitsMSB d1 0 ++ [0, 0, 0])

/-- One CRC5 division step keeps the remainder below 32. -/
theorem max14906_crc_step_lt (c b : Nat) : max14906_crc_step c b < 32 := by
  unfold max14906_crc_step
  dsimp only
  split
  · have h : 21 ^^^ (c <<< 1 &&& 31) < 2 ^ 5 :=
      Nat.xor_lt_two_pow (by decide)
        (Nat.lt_of_le_of_lt Nat.and_le_right (by decide))
    omega
  · exact Nat.lt_of_le_of_lt Nat.and_le_right (by decide)

/-- Folding CRC5 division steps keeps the remainder below 32. -/
theorem crc5_foldl_lt (bits : List Nat) (c : Nat) (h : c < 32) :
    bits.foldl max14906_crc_step c < 32 := by
  induction bits generalizing c with
  | nil => exact h
  | cons b rest ih => exact ih _ (max14906_crc_step_lt c b)

/-- Claim C2 (amended): `max14906_crc_encode` is the bit-serial CRC5 division
(start `0x1f`, polynomial `0x15`) over all 8 bits of the command byte
MSB-first, then all 8 bits of the data byte MSB-first, then 3 zero pad bits,
and returns a 5-bit result; `max14906_crc_decode` is the same division but its
command-byte window starts at MSB-first bit position 2, i.e. it processes the
6 least-significant bits of the command byte and skips its two most
significant bits. -/
theorem c2_crc_encode_decode (d0 d1 : Nat) :
    max14906_crc_encode d0 d1 =
      crc5_serial_div (byteBitsMSB d0 0 ++ byteBitsMSB d1 0 ++ [0, 0, 0]) ∧
    max14906_crc_decode d0 d1 =
      crc5_serial_div (byteBitsMSB d0 2 ++ byteBitsMSB d1 0 ++ [0, 0, 0]) ∧
    max14906_crc_encode d0 d1 < 32 ∧ max14906_crc_decode d0 d1 < 32 := by
  refine ⟨rfl, rfl, ?_, ?_⟩
  · show crc5_serial_div (byteBitsMSB d0 0 ++ byteBitsMSB d1 0 ++ [0, 0, 0]) < 32
    exact crc5_foldl_lt _ _ (by decide)
  · show crc5_serial_div (byteBitsMSB d0 2 ++ byteBitsMSB d1 0 ++ [0, 0, 0]) < 32
    exact crc5_foldl_lt _ _ (by decide)

/-- Claim C2, counterexample to the claim as stated: the decode variant does
not skip the two low bits of the command byte — flipping bit 0 changes the
result and decode disagrees with the skip-the-low-bits division there — while
flipping the top bit (an actually skipped bit) leaves the result unchanged. -/
theorem c2_crc_decode_low_bits_cex :
    max14906_crc_decode 1 0 ≠ crc5_decode_skip_low 1 0 ∧
    max14906_crc_decode 1 0 ≠ max14906_crc_decode 0 0 ∧
    max14906_crc_decode 2 0 ≠ max14906_crc_decode 0 0 ∧
    max14906_crc_decode 0x80 0 = max14906_crc_decode 0 0 ∧
    max14906_crc_decode 0x40 0 = max14906_crc_decode 0 0 := by
  decide

/-- A concrete descriptor over the in-memory register-file transport, CRC
disabled, all registers zero: the honest test double of spec section 8. -/
def stRegfile : Drv :=
  { crc_en := false, chip_address := 0, buff := ⟨0, 0, 0⟩, enable := false
    tp := .regfile (List.replicate 16 0), trace := [] }

/-- Claim C1 (amended): for a channel index `ch ≥ 4`, `max14906_ch_get` and
`max14906_ch_set` fail with `-EINVAL` leaving the whole state (hence the
transfer trace, and for `ch_get` the output pointer) untouched, while
`max14906_climit_set` performs no channel bounds check at all and goes
straight to the register update. -/
theorem c1_channel_bounds (st : Drv) (ch : Nat) (v0 val : Nat)
    (cl : max14906_climit) (h : ch ≥ 4) :
    max14906_ch_get st ch v0 = ((-EINVAL, v0), st) ∧
    max14906_ch_set st ch val = (-EINVAL, st) ∧
    max14906_climit_set st ch cl =
      max14906_reg_update st MAX14906_CONFIG_CURR_LIM (MAX14906_CL_MASK ch)
        (no_os_field_prep (MAX14906_CL_MASK ch) cl.toNat) := by
  have h4 : ch ≥ MAX14906_CHANNELS := h
  refine ⟨?_, ?_, rfl⟩
  · unfold max14906_ch_get
    simp [h4]
  · unfold max14906_ch_set
    simp [h4]

/-- Claim C1, witness: the amended bounds behaviour at channel 4. -/
theorem c1_channel_bounds_witness :
    max14906_ch_get stRegfile 4 7 = ((-EINVAL, 7), stRegfile) ∧
    max14906_ch_set stRegfile 4 1 = (-EINVAL, stRegfile) := by
  have h := c1_channel_bounds stRegfile 4 7 1 .cl_600 (by decide)
  exact ⟨h.1, h.2.1⟩

/-- Claim C1, counterexample to the claim as stated: at channel 4,
`max14906_climit_set` does not return `-EINVAL` and issues two SPI transfers
(the read and write halves of the register update), and `max14906_climit_get`
with a non-null output pointer does not return `-EINVAL` and issues one SPI
transfer. -/
theorem c1_climit_no_bounds_check_cex :
    (max14906_climit_set stRegfile 4 .cl_600).1 ≠ -EINVAL ∧
    (max14906_climit_set stRegfile 4 .cl_600).2.trace.length = 2 ∧
    (max14906_climit_get stRegfile 4 false 0).1.1 ≠ -EINVAL ∧
    (max14906_climit_get stRegfile 4 false 0).2.trace.length = 1 := by
  decide

/-- The command byte the driver builds: chip address in the 2-bit field,
register address in the 5-bit field, RW flag in bit 0. -/
def max14906_cmd_byte (chip addr rw : Nat) : Nat :=
  no_os_field_prep MAX14906_CHIP_ADDR_MASK chip |||
  no_os_field_prep MAX14906_ADDR_MASK addr |||
  no_os_field_prep MAX14906_RW_MASK rw

/-- The SPI message `max14906_reg_write` issues: command byte with RW = 1, the
value byte (truncated to 8 bits), and — with CRC enabled — the encode-CRC as
third byte with the transfer length extended from 2 to 3. -/
def max14906_write_frame (st : Drv) (addr val : Nat) : SpiMsg :=
  let b0 := max14906_cmd_byte st.chip_address addr 1
  { tx := if st.crc_en then [b0, val % 256, max14906_crc_encode b0 (val % 256)]
          else [b0, val % 256]
    bytesNumber := if st.crc_en then 3 else 2
    csChange := 1
    hasRx := false }

/-- The SPI message `max14906_reg_read` issues: command byte with RW = 0, a
zero data byte, and — with CRC enabled — the encode-CRC of the outgoing
request as third byte. -/
def max14906_read_frame (st : Drv) (addr : Nat) : SpiMsg :=
  let b0 := max14906_cmd_byte st.chip_address addr 0
  { tx := if st.crc_en then [b0, 0, max14906_crc_encode b0 0] else [b0, 0]
    bytesNumber := if st.crc_en then 3 else 2
    csChange := 1
    hasRx := true }

/-- Claim C4: `max14906_reg_write` builds command byte
`chip_address | addr | RW=1` and data byte `val` (truncated to 8 bits),
appends the encode-CRC as byte 2 and grows the length from 2 to 3 exactly
when CRC is enabled, issues exactly one SPI transfer with `cs_change` set
(the single appended `Ev.xfer` of `max14906_write_frame`, whose `csChange`
is 1), and returns the transport's return code verbatim. -/
theorem c4_reg_write_frame (st : Drv) (addr val : Nat) :
    (max14906_reg_write st addr val).2.trace =
      st.trace ++ [Ev.xfer (max14906_write_frame st addr val)] ∧
    (max14906_reg_write st addr val).1 =
      (st.tp.step (max14906_write_frame st addr val)).1 ∧
    (max14906_reg_write st addr val).2.buff.b0 =
      max14906_cmd_byte st.chip_address addr 1 ∧
    (max14906_reg_write st addr val).2.buff.b1 = val % 256 := by
  cases hc : st.crc_en <;>
    simp [max14906_reg_write, no_os_spi_transfer, max14906_write_frame,
      max14906_cmd_byte, Buf.tx, hc, MAX14906_FRAME_SIZE]

/-- `max14906_reg_write` appends exactly its one frame to the trace and
preserves the descriptor's identity fields. -/
theorem max14906_reg_write_props (st : Drv) (addr val : Nat) :
    (max14906_reg_write st addr val).2.trace =
      st.trace ++ [Ev.xfer (max14906_write_frame st addr val)] ∧
    (max14906_reg_write st addr val).2.chip_address = st.chip_address ∧
    (max14906_reg_write st addr val).2.crc_en = st.crc_en ∧
    (max14906_reg_write st addr val).2.enable = st.enable := by
  cases hc : st.crc_en <;>
    simp [max14906_reg_write, no_os_spi_transfer, max14906_write_frame,
      max14906_cmd_byte, Buf.tx, hc, MAX14906_FRAME_SIZE]

/-- `max14906_reg_read` appends exactly its one frame to the trace, preserves
the descriptor's identity fields, and leaves the output pointer contents
untouched whenever it fails. -/
theorem max14906_reg_read_props (st : Drv) (addr v0 : Nat) :
    (max14906_reg_read st addr v0).2.trace =
      st.trace ++ [Ev.xfer (max14906_read_frame st addr)] ∧
    (max14906_reg_read st addr v0).2.chip_address = st.chip_address ∧
    (max14906_reg_read st addr v0).2.crc_en = st.crc_en ∧
    (max14906_reg_read st addr v0).2.enable = st.enable ∧
    ((max14906_reg_read st addr v0).1.1 ≠ 0 →
      (max14906_reg_read st addr v0).1.2 = v0) := by
  cases hc : st.crc_en <;>
    simp only [max14906_reg_read, no_os_spi_transfer, max14906_read_frame,
      max14906_cmd_byte, Buf.tx, Buf.memset0, hc, MAX14906_FRAME_SIZE] <;>
    (repeat' split) <;> simp_all

/-- The first byte of the frame `max14906_reg_read` sends is the RW = 0
command byte. -/
theorem max14906_read_frame_head (st : Drv) (addr : Nat) :
    (max14906_read_frame st addr).tx.getD 0 0 =
      max14906_cmd_byte st.chip_address addr 0 := by
  cases hc : st.crc_en <;> simp [max14906_read_frame, hc]

/-- The first byte of the frame `max14906_reg_write` sends is the RW = 1
command byte. -/
theorem max14906_write_frame_head (st : Drv) (addr val : Nat) :
    (max14906_write_frame st addr val).tx.getD 0 0 =
      max14906_cmd_byte st.chip_address addr 1 := by
  cases hc : st.crc_en <;> simp [max14906_write_frame, hc]

/-- The command byte with the modelled masks written out: chip address at
bits 7..6, register address at bits 5..1, RW flag at bit 0. -/
theorem cmd_byte_expand (c a r : Nat) :
    max14906_cmd_byte c a r =
      ((c <<< 6) &&& 0xC0) ||| ((a <<< 1) &&& 0x3E) ||| ((r <<< 0) &&& 1) := by
  have h1 : MAX14906_CHIP_ADDR_MASK = 0xC0 := by decide
  have h2 : MAX14906_ADDR_MASK = 0x3E := by decide
  have h3 : MAX14906_RW_MASK = 1 := by decide
  have f1 : no_os_find_first_set_bit 0xC0 = 6 := by decide
  have f2 : no_os_find_first_set_bit 0x3E = 1 := by decide
  have f3 : no_os_find_first_set_bit 1 = 0 := by decide
  simp [max14906_cmd_byte, no_os_field_prep, h1, h2, h3, f1, f2, f3]

/-- A read command byte has a clear RW bit, whatever the chip and register
addresses are. -/
theorem cmd_byte_rd_not_wr (c a : Nat) :
    max14906_cmd_byte c a 0 &&& MAX14906_RW_MASK = 0 := by
  have h3 : MAX14906_RW_MASK = 1 := by decide
  rw [cmd_byte_expand, h3]
  rw [Nat.and_distrib_right, Nat.and_distrib_right]
  rw [Nat.and_assoc, Nat.and_assoc]
  norm_num

/-- Command bytes for `SETOUT` and `CONFIG_DO` differ for every chip address
and RW combination (they disagree on address bit 2). -/
theorem cmd_byte_addr_ne (c r r' : Nat) :
    max14906_cmd_byte c MAX14906_SETOUT_REG r ≠
      max14906_cmd_byte c MAX14906_CONFIG_DO_REG r' := by
  intro h
  have hb := congrArg (fun n => n.testBit 2) h
  rw [cmd_byte_expand, cmd_byte_expand] at hb
  have e1 : Nat.testBit 1 2 = false := by decide
  have e2 : Nat.testBit 10 1 = true := by decide
  have e3 : Nat.testBit 62 2 = true := by decide
  simp only [Nat.testBit_or, Nat.testBit_and, Nat.testBit_shiftLeft,
    MAX14906_SETOUT_REG, MAX14906_CONFIG_DO_REG, e1, e2, e3] at hb
  simp at hb

/-- Trace shape of `max14906_reg_update`: it appends only frames addressed to
its own register (a read frame and, if the read succeeded, a write frame); on
overall success the appended events end with the write frame; the
descriptor's identity fields are preserved. -/
theorem max14906_reg_update_shape (st : Drv) (addr mask val : Nat) :
    ∃ app,
      (max14906_reg_update st addr mask val).2.trace = st.trace ++ app ∧
      (∀ e ∈ app, ∃ m : SpiMsg, e = Ev.xfer m ∧
        (m.tx.getD 0 0 = max14906_cmd_byte st.chip_address addr 0 ∨
         m.tx.getD 0 0 = max14906_cmd_byte st.chip_address addr 1)) ∧
      ((max14906_reg_update st addr mask val).1 = 0 →
        ∃ pre wm, app = pre ++ [Ev.xfer wm] ∧
          wm.tx.getD 0 0 = max14906_cmd_byte st.chip_address addr 1) ∧
      (max14906_reg_update st addr mask val).2.chip_address = st.chip_address ∧
      (max14906_reg_update st addr mask val).2.crc_en = st.crc_en ∧
      (max14906_reg_update st addr mask val).2.enable = st.enable := by
  obtain ⟨hrt, hrc, hrcrc, hre, _⟩ := max14906_reg_read_props st addr 0
  unfold max14906_reg_update
  dsimp only
  split
  case isTrue h =>
    refine ⟨[Ev.xfer (max14906_read_frame st addr)], hrt, ?_, ?_, hrc, hrcrc, hre⟩
    · intro e he
      simp only [List.mem_singleton] at he
      exact ⟨_, he, Or.inl (max14906_read_frame_head st addr)⟩
    · intro h0
      exact absurd h0 h
  case isFalse h =>
    set r := max14906_reg_read st addr 0 with hr
    obtain ⟨hwt, hwc, hwcrc, hwe⟩ :=
      max14906_reg_write_props r.2 addr
        ((r.1.2 &&& (U32MASK ^^^ mask)) ||| (mask &&& val))
    refine ⟨[Ev.xfer (max14906_read_frame st addr),
             Ev.xfer (max14906_write_frame r.2 addr
               ((r.1.2 &&& (U32MASK ^^^ mask)) ||| (mask &&& val)))],
            ?_, ?_, ?_, ?_, ?_, ?_⟩
    · rw [hwt, hrt]
      simp
    · intro e he
      simp only [List.mem_cons, List.mem_singleton] at he
      rcases he with he | he | he
      · exact ⟨_, he, Or.inl (max14906_read_frame_head st addr)⟩
      · refine ⟨_, he, Or.inr ?_⟩
        rw [max14906_write_frame_head, hrc]
      · cases he
    · intro _
      refine ⟨[Ev.xfer (max14906_read_frame st addr)], _, rfl, ?_⟩
      rw [max14906_write_frame_head, hrc]
    · rw [hwc, hrc]
    · rw [hwcrc, hrcrc]
    · rw [hwe, hre]

/-- Claim C5: `max14906_reg_update` first reads the register; if the read
fails it returns that error having issued no write frame (every event it
appended has a clear RW bit), and if the read succeeds it hands exactly
`(read_value &&& ~mask) ||| (mask &&& val)` to `max14906_reg_write` at the
same address. -/
theorem c5_reg_update (st : Drv) (addr mask val : Nat) :
    ((max14906_reg_read st addr 0).1.1 ≠ 0 →
      max14906_reg_update st addr mask val =
        ((max14906_reg_read st addr 0).1.1, (max14906_reg_read st addr 0).2) ∧
      ∀ e ∈ (max14906_reg_update st addr mask val).2.trace.drop
          st.trace.length,
        ∀ m : SpiMsg, e = Ev.xfer m →
          m.tx.getD 0 0 &&& MAX14906_RW_MASK = 0) ∧
    ((max14906_reg_read st addr 0).1.1 = 0 →
      max14906_reg_update st addr mask val =
        max14906_reg_write (max14906_reg_read st addr 0).2 addr
          (((max14906_reg_read st addr 0).1.2 &&& (U32MASK ^^^ mask)) |||
            (mask &&& val))) := by
  constructor
  · intro h
    have heq : max14906_reg_update st addr mask val =
        ((max14906_reg_read st addr 0).1.1,
          (max14906_reg_read st addr 0).2) := by
      unfold max14906_reg_update
      dsimp only
      rw [if_pos h]
    refine ⟨heq, ?_⟩
    obtain ⟨hrt, _, _, _, _⟩ := max14906_reg_read_props st addr 0
    rw [heq]
    intro e he m hm
    rw [hrt, List.drop_left] at he
    simp only [List.mem_singleton] at he
    subst he
    cases hm
    rw [max14906_read_frame_head]
    exact cmd_byte_rd_not_wr st.chip_address addr
  · intro h
    unfold max14906_reg_update
    dsimp only
    rw [if_neg (by simpa using h)]

/-- A concrete descriptor whose scripted transport fails the next transfer
with error code `-5`. -/
def stScriptFail : Drv :=
  { crc_en := false, chip_address := 0, buff := ⟨0, 0, 0⟩, enable := false
    tp := .script [.fail (-5)], trace := [] }

/-- Claim C5, witness: a failing read propagates its error with no write
frame issued, and a succeeding read leads to the masked write-back. -/
theorem c5_reg_update_witness :
    (max14906_reg_read stScriptFail 2 0).1.1 ≠ 0 ∧
    max14906_reg_update stScriptFail 2 1 1 =
      ((max14906_reg_read stScriptFail 2 0).1.1,
        (max14906_reg_read stScriptFail 2 0).2) ∧
    (max14906_reg_read stRegfile 2 0).1.1 = 0 ∧
    max14906_reg_update stRegfile 2 1 1 =
      max14906_reg_write (max14906_reg_read stRegfile 2 0).2 2
        (((max14906_reg_read stRegfile 2 0).1.2 &&& (U32MASK ^^^ 1)) |||
          (1 &&& 1)) :=
  ⟨by decide, ((c5_reg_update stScriptFail 2 1 1).1 (by decide)).1, by decide,
   (c5_reg_update stRegfile 2 1 1).2 (by decide)⟩

/-- Claim C3: with CRC enabled and a successful transfer returning bytes `r`,
`max14906_reg_read` recomputes the CRC5 decode variant over the returned
bytes 0 and 1 and compares it with returned byte 2: on mismatch it returns
`-EINVAL` and leaves the output pointer contents at `val0`; on match it
returns 0 and stores returned byte 1 through the output pointer. -/
theorem c3_reg_read_crc_check (ca : Nat) (b : Buf) (en : Bool) (tr : List Ev)
    (rest : List SpiOutcome) (r : List Nat) (addr val0 : Nat) :
    (max14906_crc_decode (r.getD 0 0) (r.getD 1 0) ≠ r.getD 2 0 →
      (max14906_reg_read ⟨true, ca, b, en, .script (.ok r :: rest), tr⟩
        addr val0).1 = (-EINVAL, val0)) ∧
    (max14906_crc_decode (r.getD 0 0) (r.getD 1 0) = r.getD 2 0 →
      (max14906_reg_read ⟨true, ca, b, en, .script (.ok r :: rest), tr⟩
        addr val0).1 = (0, r.getD 1 0)) := by
  constructor <;>
  · simp only [max14906_reg_read, no_os_spi_transfer, Transport.step,
      Buf.memset0, Buf.writeRx, Buf.tx, MAX14906_FRAME_SIZE, List.getD]
    intro h
    simp_all

/-- Claim C3, witness: a response whose CRC byte was zeroed (the honest CRC
of bytes `0, 5` is 7) is rejected with `-EINVAL` and the output pointer keeps
its old contents `99`; the intact response is accepted and stores `5`. -/
theorem c3_reg_read_crc_check_witness :
    max14906_crc_decode 0 5 ≠ 0 ∧
    (max14906_reg_read ⟨true, 0, ⟨0, 0, 0⟩, false, .script [.ok [0, 5, 0]], []⟩
      2 99).1 = (-EINVAL, 99) ∧
    max14906_crc_decode 0 5 = 7 ∧
    (max14906_reg_read ⟨true, 0, ⟨0, 0, 0⟩, false, .script [.ok [0, 5, 7]], []⟩
      2 99).1 = (0, 5) :=
  ⟨by decide,
   (c3_reg_read_crc_check 0 ⟨0, 0, 0⟩ false [] [] [0, 5, 0] 2 99).1 (by decide),
   by decide,
   (c3_reg_read_crc_check 0 ⟨0, 0, 0⟩ false [] [] [0, 5, 7] 2 99).2 (by decide)⟩

/-- Shape of the "update, and on success update again" pattern of
`max14906_ch_func`: the appended events split into frames to the first
register followed by frames to the second; on overall success the appended
events end with a write frame to the second register; if the first update
fails, no frame to the second register is appended at all. -/
theorem seq_update_shape (st : Drv) (a1 m1 v1 a2 m2 v2 : Nat) :
    ∃ l1 l2,
      (if (max14906_reg_update st a1 m1 v1).1 ≠ 0 then
          max14906_reg_update st a1 m1 v1
        else
          max14906_reg_update (max14906_reg_update st a1 m1 v1).2 a2 m2
            v2).2.trace = st.trace ++ l1 ++ l2 ∧
      (∀ e ∈ l1, ∃ m : SpiMsg, e = Ev.xfer m ∧
        (m.tx.getD 0 0 = max14906_cmd_byte st.chip_address a1 0 ∨
         m.tx.getD 0 0 = max14906_cmd_byte st.chip_address a1 1)) ∧
      (∀ e ∈ l2, ∃ m : SpiMsg, e = Ev.xfer m ∧
        (m.tx.getD 0 0 = max14906_cmd_byte st.chip_address a2 0 ∨
         m.tx.getD 0 0 = max14906_cmd_byte st.chip_address a2 1)) ∧
      ((if (max14906_reg_update st a1 m1 v1).1 ≠ 0 then
          max14906_reg_update st a1 m1 v1
        else
          max14906_reg_update (max14906_reg_update st a1 m1 v1).2 a2 m2
            v2).1 = 0 →
        ∃ pre wm, l1 ++ l2 = pre ++ [Ev.xfer wm] ∧
          wm.tx.getD 0 0 = max14906_cmd_byte st.chip_address a2 1) ∧
      ((max14906_reg_update st a1 m1 v1).1 ≠ 0 → l2 = []) := by
  obtain ⟨app1, h1t, h1f, h1s, h1c, h1crc, h1e⟩ :=
    max14906_reg_update_shape st a1 m1 v1
  split
  case isTrue h =>
    exact ⟨app1, [], by simpa using h1t, h1f, by simp, fun h0 => absurd h0 h,
      fun _ => rfl⟩
  case isFalse h =>
    obtain ⟨app2, h2t, h2f, h2s, _, _, _⟩ :=
      max14906_reg_update_shape (max14906_reg_update st a1 m1 v1).2 a2 m2 v2
    refine ⟨app1, app2, ?_, h1f, ?_, ?_, fun hne => absurd hne h⟩
    · rw [h2t, h1t, List.append_assoc]
    · intro e he
      obtain ⟨m, hm, hh⟩ := h2f e he
      rw [h1c] at hh
      exact ⟨m, hm, hh⟩
    · intro h0
      obtain ⟨pre2, wm, happ, hwm⟩ := h2s h0
      rw [h1c] at hwm
      exact ⟨app1 ++ pre2, wm, by rw [happ, List.append_assoc], hwm⟩

/-- Claim C6: in every `max14906_ch_func` call the trace splits into a part
with no `SETOUT`-write frame followed by a part with no `CONFIG_DO`-write
frame, so the output-mode (`CONFIG_DO`) write always precedes the direction
(`SETOUT`) write, for `HIGH_Z` and `INPUT` alike; on success every branch's
last issued frame is the `SETOUT` write of the direction read-modify-write;
and when the leading mode update of a non-`OUTPUT` branch fails, its error is
returned immediately and no `SETOUT` frame (read or write) is ever issued. -/
theorem c6_ch_func_ordering (st : Drv) (ch : Nat) (f : max14906_function) :
    (∃ l1 l2,
      (max14906_ch_func st ch f).2.trace = st.trace ++ l1 ++ l2 ∧
      (∀ e ∈ l1, ∀ m : SpiMsg, e = Ev.xfer m →
        m.tx.getD 0 0 ≠
          max14906_cmd_byte st.chip_address MAX14906_SETOUT_REG 1) ∧
      (∀ e ∈ l2, ∀ m : SpiMsg, e = Ev.xfer m →
        m.tx.getD 0 0 ≠
          max14906_cmd_byte st.chip_address MAX14906_CONFIG_DO_REG 1)) ∧
    ((max14906_ch_func st ch f).1 = 0 →
      ∃ pre wm,
        (max14906_ch_func st ch f).2.trace = st.trace ++ pre ++ [Ev.xfer wm] ∧
        wm.tx.getD 0 0 =
          max14906_cmd_byte st.chip_address MAX14906_SETOUT_REG 1) ∧
    (f ≠ .out →
      (max14906_reg_update st MAX14906_CONFIG_DO_REG (MAX14906_DO_MASK ch)
        (no_os_field_prep (MAX14906_DO_MASK ch)
          (if f = .high_z then MAX14906_PUSH_PULL else MAX14906_HIGH_SIDE))).1
          ≠ 0 →
      max14906_ch_func st ch f =
        max14906_reg_update st MAX14906_CONFIG_DO_REG (MAX14906_DO_MASK ch)
          (no_os_field_prep (MAX14906_DO_MASK ch)
            (if f = .high_z then MAX14906_PUSH_PULL else MAX14906_HIGH_SIDE)) ∧
      ∀ e ∈ (max14906_ch_func st ch f).2.trace.drop st.trace.length,
        ∀ m : SpiMsg, e = Ev.xfer m →
          m.tx.getD 0 0 ≠
            max14906_cmd_byte st.chip_address MAX14906_SETOUT_REG 0 ∧
          m.tx.getD 0 0 ≠
            max14906_cmd_byte st.chip_address MAX14906_SETOUT_REG 1) := by
  cases f with
  | out =>
    have heq : max14906_ch_func st ch .out =
        max14906_reg_update st MAX14906_SETOUT_REG (MAX14906_CH_DIR_MASK ch)
          (no_os_field_prep (MAX14906_CH_DIR_MASK ch)
            max14906_function.out.toNat) := by
      simp [max14906_ch_func]
    obtain ⟨app, ht, hfr, hs, _, _, _⟩ :=
      max14906_reg_update_shape st MAX14906_SETOUT_REG
        (MAX14906_CH_DIR_MASK ch)
        (no_os_field_prep (MAX14906_CH_DIR_MASK ch)
          max14906_function.out.toNat)
    refine ⟨⟨[], app, ?_, by simp, ?_⟩, ?_, ?_⟩
    · rw [heq, ht]
      simp
    · intro e he m hm
      obtain ⟨m', hm', hh⟩ := hfr e he
      rw [hm] at hm'
      injection hm' with hmm
      subst hmm
      rcases hh with hh | hh <;> rw [hh]
      · exact cmd_byte_addr_ne st.chip_address 0 1
      · exact cmd_byte_addr_ne st.chip_address 1 1
    · rw [heq]
      intro h0
      obtain ⟨pre, wm, happ, hwm⟩ := hs h0
      refine ⟨pre, wm, ?_, hwm⟩
      rw [ht, happ]
      simp [List.append_assoc]
    · intro hf'
      exact absurd rfl hf'
  | high_z =>
    have heq : max14906_ch_func st ch .high_z =
        (if (max14906_reg_update st MAX14906_CONFIG_DO_REG
              (MAX14906_DO_MASK ch)
              (no_os_field_prep (MAX14906_DO_MASK ch)
                MAX14906_PUSH_PULL)).1 ≠ 0 then
          max14906_reg_update st MAX14906_CONFIG_DO_REG (MAX14906_DO_MASK ch)
            (no_os_field_prep (MAX14906_DO_MASK ch) MAX14906_PUSH_PULL)
        else
          max14906_reg_update
            (max14906_reg_update st MAX14906_CONFIG_DO_REG
              (MAX14906_DO_MASK ch)
              (no_os_field_prep (MAX14906_DO_MASK ch) MAX14906_PUSH_PULL)).2
            MAX14906_SETOUT_REG (MAX14906_CH_DIR_MASK ch)
            (no_os_field_prep (MAX14906_CH_DIR_MASK ch) 1)) := by
      simp [max14906_ch_func]
    obtain ⟨l1, l2, ht, hf1, hf2, hs, hfail⟩ :=
      seq_update_shape st MAX14906_CONFIG_DO_REG (MAX14906_DO_MASK ch)
        (no_os_field_prep (MAX14906_DO_MASK ch) MAX14906_PUSH_PULL)
        MAX14906_SETOUT_REG (MAX14906_CH_DIR_MASK ch)
        (no_os_field_prep (MAX14906_CH_DIR_MASK ch) 1)
    refine ⟨⟨l1, l2, ?_, ?_, ?_⟩, ?_, ?_⟩
    · rw [heq]
      exact ht
    · intro e he m hm
      obtain ⟨m', hm', hh⟩ := hf1 e he
      rw [hm] at hm'
      injection hm' with hmm
      subst hmm
      rcases hh with hh | hh <;> rw [hh]
      · exact Ne.symm (cmd_byte_addr_ne st.chip_address 1 0)
      · exact Ne.symm (cmd_byte_addr_ne st.chip_address 1 1)
    · intro e he m hm
      obtain ⟨m', hm', hh⟩ := hf2 e he
      rw [hm] at hm'
      injection hm' with hmm
      subst hmm
      rcases hh with hh | hh <;> rw [hh]
      · exact cmd_byte_addr_ne st.chip_address 0 1
      · exact cmd_byte_addr_ne st.chip_address 1 1
    · rw [heq]
      intro h0
      obtain ⟨pre, wm, happ, hwm⟩ := hs h0
      refine ⟨pre, wm, ?_, hwm⟩
      rw [ht, List.append_assoc, happ]
      simp [List.append_assoc]
    · intro _ hupd
      rw [if_pos rfl] at hupd
      have hl2 : l2 = [] := hfail hupd
      constructor
      · rw [heq, if_pos hupd, if_pos rfl]
      · intro e he m hm
        rw [heq] at he
        rw [ht, hl2, List.append_nil, List.drop_left] at he
        obtain ⟨m', hm', hh⟩ := hf1 e he
        rw [hm] at hm'
        injection hm' with hmm
        subst hmm
        constructor <;> (rcases hh with hh | hh <;> rw [hh])
        · exact Ne.symm (cmd_byte_addr_ne st.chip_address 0 0)
        · exact Ne.symm (cmd_byte_addr_ne st.chip_address 0 1)
        · exact Ne.symm (cmd_byte_addr_ne st.chip_address 1 0)
        · exact Ne.symm (cmd_byte_addr_ne st.chip_address 1 1)
  | inp =>
    have heq : max14906_ch_func st ch .inp =
        (if (max14906_reg_update st MAX14906_CONFIG_DO_REG
              (MAX14906_DO_MASK ch)
              (no_os_field_prep (MAX14906_DO_MASK ch)
                MAX14906_HIGH_SIDE)).1 ≠ 0 then
          max14906_reg_update st MAX14906_CONFIG_DO_REG (MAX14906_DO_MASK ch)
            (no_os_field_prep (MAX14906_DO_MASK ch) MAX14906_HIGH_SIDE)
        else
          max14906_reg_update
            (max14906_reg_update st MAX14906_CONFIG_DO_REG
              (MAX14906_DO_MASK ch)
              (no_os_field_prep (MAX14906_DO_MASK ch) MAX14906_HIGH_SIDE)).2
            MAX14906_SETOUT_REG (MAX14906_CH_DIR_MASK ch)
            (no_os_field_prep (MAX14906_CH_DIR_MASK ch)
              max14906_function.inp.toNat)) := by
      simp [max14906_ch_func]
    obtain ⟨l1, l2, ht, hf1, hf2, hs, hfail⟩ :=
      seq_update_shape st MAX14906_CONFIG_DO_REG (MAX14906_DO_MASK ch)
        (no_os_field_prep (MAX14906_DO_MASK ch) MAX14906_HIGH_SIDE)
        MAX14906_SETOUT_REG (MAX14906_CH_DIR_MASK ch)
        (no_os_field_prep (MAX14906_CH_DIR_MASK ch)
          max14906_function.inp.toNat)
    refine ⟨⟨l1, l2, ?_, ?_, ?_⟩, ?_, ?_⟩
    · rw [heq]
      exact ht
    · intro e he m hm
      obtain ⟨m', hm', hh⟩ := hf1 e he
      rw [hm] at hm'
      injection hm' with hmm
      subst hmm
      rcases hh with hh | hh <;> rw [hh]
      · exact Ne.symm (cmd_byte_addr_ne st.chip_address 1 0)
      · exact Ne.symm (cmd_byte_addr_ne st.chip_address 1 1)
    · intro e he m hm
      obtain ⟨m', hm', hh⟩ := hf2 e he
      rw [hm] at hm'
      injection hm' with hmm
      subst hmm
      rcases hh with hh | hh <;> rw [hh]
      · exact cmd_byte_addr_ne st.chip_address 0 1
      · exact cmd_byte_addr_ne st.chip_address 1 1
    · rw [heq]
      intro h0
      obtain ⟨pre, wm, happ, hwm⟩ := hs h0
      refine ⟨pre, wm, ?_, hwm⟩
      rw [ht, List.append_assoc, happ]
      simp [List.append_assoc]
    · intro _ hupd
      rw [if_neg (by simp)] at hupd
      have hl2 : l2 = [] := hfail hupd
      constructor
      · rw [heq, if_pos hupd, if_neg (by simp)]
      · intro e he m hm
        rw [heq] at he
        rw [ht, hl2, List.append_nil, List.drop_left] at he
        obtain ⟨m', hm', hh⟩ := hf1 e he
        rw [hm] at hm'
        injection hm' with hmm
        subst hmm
        constructor <;> (rcases hh with hh | hh <;> rw [hh])
        · exact Ne.symm (cmd_byte_addr_ne st.chip_address 0 0)
        · exact Ne.symm (cmd_byte_addr_ne st.chip_address 0 1)
        · exact Ne.symm (cmd_byte_addr_ne st.chip_address 1 0)
        · exact Ne.symm (cmd_byte_addr_ne st.chip_address 1 1)

/-- Claim C6, witness: over the honest register file, `ch_func(0, HIGH_Z)`
succeeds and its last frame is the `SETOUT` write; over a transport that
fails the first transfer, the leading `CONFIG_DO` update's error is returned
with no `SETOUT` access. -/
theorem c6_ch_func_ordering_witness :
    ((max14906_ch_func stRegfile 0 .high_z).1 = 0 ∧
     ∃ pre wm,
       (max14906_ch_func stRegfile 0 .high_z).2.trace =
         stRegfile.trace ++ pre ++ [Ev.xfer wm] ∧
       wm.tx.getD 0 0 =
         max14906_cmd_byte stRegfile.chip_address MAX14906_SETOUT_REG 1) ∧
    max14906_ch_func stScriptFail 0 .high_z =
      max14906_reg_update stScriptFail MAX14906_CONFIG_DO_REG
        (MAX14906_DO_MASK 0)
        (no_os_field_prep (MAX14906_DO_MASK 0)
          (if max14906_function.high_z = .high_z then MAX14906_PUSH_PULL
           else MAX14906_HIGH_SIDE)) :=
  ⟨⟨by decide, (c6_ch_func_ordering stRegfile 0 .high_z).2.1 (by decide)⟩,
   ((c6_ch_func_ordering stScriptFail 0 .high_z).2.2 (by decide)
     (by decide)).1⟩

/-- Outcomes of the collaborator calls `max14906_init` makes (allocation, SPI
transport acquisition, optional enable-GPIO acquisition and drive), plus the
configuration recorded in the descriptor and the SPI transport backing the
register operations.  `gpioNonNull` says whether a successful
`no_os_gpio_get_optional` produced a non-null handle (it returns 0 with a
null handle when no enable line is configured). -/
structure InitEnv where
  callocOk : Bool
  spiInitRet : Int
  crcEn : Bool
  chipAddr : Nat
  gpioGetRet : Int
  gpioNonNull : Bool
  gpioSetRet : Int
  tp : Transport
deriving DecidableEq

/-- The `gpio_err` label of `max14906_init` (max14906.c lines 417-423):
remove the enable GPIO, remove the SPI transport, free the descriptor, and
return the pending error; the caller's output pointer is never written. -/
def max14906_initFail (st : Drv) (ret : Int) : Int × Option Drv × List Ev :=
  (ret, none, st.trace ++ [Ev.gpioRemoveEv, Ev.spiRemoveEv, Ev.freeEv])

/-- The channel loop of `max14906_init` (max14906.c lines 403-411): for each
channel in order, force HIGH_Z then set the minimum current limit, aborting
on the first error. -/
def max14906_init_loop (st : Drv) : List Nat → Int × Drv
  | [] => (0, st)
  | ch :: rest =>
    let r1 := max14906_ch_func st ch .high_z
    if r1.1 ≠ 0 then r1
    else
      let r2 := max14906_climit_set r1.2 ch .cl_130
      if r2.1 ≠ 0 then r2
      else max14906_init_loop r2.2 rest

/-- The tail of `max14906_init` after transport and enable-line handling
(max14906.c lines 386-415): read the four latched-fault registers, run the
channel loop, and on success hand the descriptor to the caller. -/
def max14906_init_body (st : Drv) : Int × Option Drv × List Ev :=
  let r1 := max14906_reg_read st MAX14906_OVR_LD_REG 0
  if r1.1.1 ≠ 0 then max14906_initFail r1.2 r1.1.1
  else
    let r2 := max14906_reg_read r1.2 MAX14906_OPN_WIR_FLT_REG 0
    if r2.1.1 ≠ 0 then max14906_initFail r2.2 r2.1.1
    else
      let r3 := max14906_reg_read r2.2 MAX14906_SHD_VDD_FLT_REG 0
      if r3.1.1 ≠ 0 then max14906_initFail r3.2 r3.1.1
      else
        let r4 := max14906_reg_read r3.2 MAX14906_GLOBAL_FLT_REG 0
        if r4.1.1 ≠ 0 then max14906_initFail r4.2 r4.1.1
        else
          let r5 := max14906_init_loop r4.2 (List.range MAX14906_CHANNELS)
          if r5.1 ≠ 0 then max14906_initFail r5.2 r5.1
          else (0, some r5.2, r5.2.trace)

/-- `max14906_init` (max14906.c lines 361-424).  Returns the C return code,
the caller's descriptor output pointer contents (`none` when it was never
written), and the event trace. -/
def max14906_init (env : InitEnv) : Int × Option Drv × List Ev :=
  if ¬ env.callocOk then (-ENOMEM, none, [])
  else if env.spiInitRet ≠ 0 then
    (env.spiInitRet, none, [Ev.spiInitEv, Ev.freeEv])
  else
    let st : Drv :=
      { crc_en := env.crcEn, chip_address := env.chipAddr, buff := ⟨0, 0, 0⟩
        enable := false, tp := env.tp
        trace := [Ev.spiInitEv, Ev.gpioGetEv] }
    if env.gpioGetRet = 0 then
      let st := { st with
        enable := env.gpioNonNull
        trace := st.trace ++ [Ev.gpioSetEv NO_OS_GPIO_HIGH] }
      if env.gpioSetRet ≠ 0 then max14906_initFail st env.gpioSetRet
      else max14906_init_body st
    else max14906_init_body st

/-- The channel loop of `max14906_remove` (max14906.c lines 438-442): force
every channel to HIGH_Z, aborting on the first error. -/
def max14906_remove_loop (st : Drv) : List Nat → Int × Drv
  | [] => (0, st)
  | ch :: rest =>
    let r := max14906_ch_func st ch .high_z
    if r.1 ≠ 0 then r else max14906_remove_loop r.2 rest

/-- `max14906_remove` (max14906.c lines 431-457).  `spiRemoveRet` and
`gpioSetRet` are the outcomes of the transport release and of driving the
enable line to high impedance; the returned list is the event trace. -/
def max14906_remove (desc : Option Drv) (spiRemoveRet gpioSetRet : Int) :
    Int × List Ev :=
  match desc with
  | none => (-ENODEV, [])
  | some st =>
    let r := max14906_remove_loop st (List.range MAX14906_CHANNELS)
    if r.1 ≠ 0 then (r.1, r.2.trace)
    else
      let st2 := { r.2 with trace := r.2.trace ++ [Ev.spiRemoveEv] }
      if spiRemoveRet ≠ 0 then (spiRemoveRet, st2.trace)
      else if st2.enable then
        let st3 := { st2 with
          trace := st2.trace ++ [Ev.gpioSetEv NO_OS_GPIO_HIGH_Z] }
        if gpioSetRet ≠ 0 then (gpioSetRet, st3.trace)
        else (0, st3.trace ++ [Ev.freeEv])
      else (0, st2.trace ++ [Ev.freeEv])

/-- Modelled from the spec: the end-to-end init environment of spec section
8 — allocation and collaborators succeed, chip address 0, and the transport
is the honest in-memory register file with power-up-zero registers. -/
def initEnvHonest (crc : Bool) : InitEnv :=
  { callocOk := true, spiInitRet := 0, crcEn := crc, chipAddr := 0
    gpioGetRet := 0, gpioNonNull := true, gpioSetRet := 0
    tp := .regfile (List.replicate 16 0) }

/-- The descriptor a successful honest-transport init hands to the caller. -/
def initFinalSt (crc : Bool) : Drv :=
  ((max14906_init (initEnvHonest crc)).2.1).getD stRegfile

/-- Command and data byte of a write frame, `none` for anything else. -/
def evWrBytes (e : Ev) : Option (Nat × Nat) :=
  match e with
  | Ev.xfer m =>
    if (m.tx.getD 0 0) &&& MAX14906_RW_MASK == 1 then
      some (m.tx.getD 0 0, m.tx.getD 1 0)
    else none
  | _ => none

/-- Whether an event is an SPI frame with the given command byte. -/
def evHeadIs (b : Nat) (e : Ev) : Bool :=
  match e with
  | Ev.xfer m => m.tx.getD 0 0 == b
  | _ => false

/-- Whether an event is an SPI write frame (RW bit set). -/
def evIsWr (e : Ev) : Bool :=
  match e with
  | Ev.xfer m => (m.tx.getD 0 0) &&& MAX14906_RW_MASK == 1
  | _ => false

/-- Claim C7: with CRC on or off, against the honest in-memory register file
`max14906_init` succeeds and hands the caller the final descriptor; each of
the four latched-fault registers (`0x4`..`0x7`) is read exactly once, never
written, and all four reads happen in order before the first register write;
the write frames are exactly, in order, per channel 0..3: the `CONFIG_DO`
push-pull mode write, the `SETOUT` direction write, and the `CONFIG_CURR_LIM`
minimum-limit write; and afterwards every channel reads back as HIGH_Z
(`CONFIG_DO` field push-pull and `SETOUT` direction bit 1) with current limit
`CL_130`. -/
theorem c7_init_defaults : ∀ crc : Bool,
    (max14906_init (initEnvHonest crc)).1 = 0 ∧
    (max14906_init (initEnvHonest crc)).2.1 = some (initFinalSt crc) ∧
    ((max14906_init (initEnvHonest crc)).2.2).filterMap evWrBytes =
      [(0x15, 0x03), (0x01, 0x10), (0x17, 0x01),
       (0x15, 0x0F), (0x01, 0x30), (0x17, 0x05),
       (0x15, 0x3F), (0x01, 0x70), (0x17, 0x15),
       (0x15, 0xFF), (0x01, 0xF0), (0x17, 0x55)] ∧
    (∀ a ∈ [MAX14906_OVR_LD_REG, MAX14906_OPN_WIR_FLT_REG,
            MAX14906_SHD_VDD_FLT_REG, MAX14906_GLOBAL_FLT_REG],
      ((max14906_init (initEnvHonest crc)).2.2).countP
        (evHeadIs (max14906_cmd_byte 0 a 0)) = 1 ∧
      ((max14906_init (initEnvHonest crc)).2.2).countP
        (evHeadIs (max14906_cmd_byte 0 a 1)) = 0) ∧
    (((max14906_init (initEnvHonest crc)).2.2).findIdx
        (evHeadIs (max14906_cmd_byte 0 MAX14906_OVR_LD_REG 0)) <
      ((max14906_init (initEnvHonest crc)).2.2).findIdx
        (evHeadIs (max14906_cmd_byte 0 MAX14906_OPN_WIR_FLT_REG 0)) ∧
     ((max14906_init (initEnvHonest crc)).2.2).findIdx
        (evHeadIs (max14906_cmd_byte 0 MAX14906_OPN_WIR_FLT_REG 0)) <
      ((max14906_init (initEnvHonest crc)).2.2).findIdx
        (evHeadIs (max14906_cmd_byte 0 MAX14906_SHD_VDD_FLT_REG 0)) ∧
     ((max14906_init (initEnvHonest crc)).2.2).findIdx
        (evHeadIs (max14906_cmd_byte 0 MAX14906_SHD_VDD_FLT_REG 0)) <
      ((max14906_init (initEnvHonest crc)).2.2).findIdx
        (evHeadIs (max14906_cmd_byte 0 MAX14906_GLOBAL_FLT_REG 0)) ∧
     ((max14906_init (initEnvHonest crc)).2.2).findIdx
        (evHeadIs (max14906_cmd_byte 0 MAX14906_GLOBAL_FLT_REG 0)) <
      ((max14906_init (initEnvHonest crc)).2.2).findIdx evIsWr) ∧
    (∀ ch, ch < MAX14906_CHANNELS →
      (max14906_climit_get (initFinalSt crc) ch false 0).1 =
        (0, max14906_climit.cl_130.toNat) ∧
      (max14906_reg_read (initFinalSt crc) MAX14906_CONFIG_DO_REG 0).1.1 = 0 ∧
      no_os_field_get (MAX14906_DO_MASK ch)
        (max14906_reg_read (initFinalSt crc) MAX14906_CONFIG_DO_REG 0).1.2 =
        MAX14906_PUSH_PULL ∧
      (max14906_reg_read (initFinalSt crc) MAX14906_SETOUT_REG 0).1.1 = 0 ∧
      no_os_field_get (MAX14906_CH_DIR_MASK ch)
        (max14906_reg_read (initFinalSt crc) MAX14906_SETOUT_REG 0).1.2 =
        1) := by
  intro crc
  cases crc <;> (set_option maxRecDepth 10000 in decide)

/-- `max14906_ch_func` for `OUTPUT` is the direction update alone. -/
theorem ch_func_out_eq (st : Drv) (ch : Nat) :
    max14906_ch_func st ch .out =
      max14906_reg_update st MAX14906_SETOUT_REG (MAX14906_CH_DIR_MASK ch)
        (no_os_field_prep (MAX14906_CH_DIR_MASK ch)
          max14906_function.out.toNat) := by
  simp [max14906_ch_func]

/-- `max14906_ch_func` for `HIGH_Z`: the push-pull mode update, then — only
if it succeeded — the direction update to 1. -/
theorem ch_func_high_z_eq (st : Drv) (ch : Nat) :
    max14906_ch_func st ch .high_z =
      (if (max14906_reg_update st MAX14906_CONFIG_DO_REG (MAX14906_DO_MASK ch)
            (no_os_field_prep (MAX14906_DO_MASK ch) MAX14906_PUSH_PULL)).1
          ≠ 0 then
        max14906_reg_update st MAX14906_CONFIG_DO_REG (MAX14906_DO_MASK ch)
          (no_os_field_prep (MAX14906_DO_MASK ch) MAX14906_PUSH_PULL)
      else
        max14906_reg_update
          (max14906_reg_update st MAX14906_CONFIG_DO_REG (MAX14906_DO_MASK ch)
            (no_os_field_prep (MAX14906_DO_MASK ch) MAX14906_PUSH_PULL)).2
          MAX14906_SETOUT_REG (MAX14906_CH_DIR_MASK ch)
          (no_os_field_prep (MAX14906_CH_DIR_MASK ch) 1)) := by
  simp [max14906_ch_func]

/-- `max14906_ch_func` for `INPUT`: the high-side mode update, then — only if
it succeeded — the direction update to the enum value. -/
theorem ch_func_inp_eq (st : Drv) (ch : Nat) :
    max14906_ch_func st ch .inp =
      (if (max14906_reg_update st MAX14906_CONFIG_DO_REG (MAX14906_DO_MASK ch)
            (no_os_field_prep (MAX14906_DO_MASK ch) MAX14906_HIGH_SIDE)).1
          ≠ 0 then
        max14906_reg_update st MAX14906_CONFIG_DO_REG (MAX14906_DO_MASK ch)
          (no_os_field_prep (MAX14906_DO_MASK ch) MAX14906_HIGH_SIDE)
      else
        max14906_reg_update
          (max14906_reg_update st MAX14906_CONFIG_DO_REG (MAX14906_DO_MASK ch)
            (no_os_field_prep (MAX14906_DO_MASK ch) MAX14906_HIGH_SIDE)).2
          MAX14906_SETOUT_REG (MAX14906_CH_DIR_MASK ch)
          (no_os_field_prep (MAX14906_CH_DIR_MASK ch)
            max14906_function.inp.toNat)) := by
  simp [max14906_ch_func]

/-- `max14906_reg_update` appends only SPI-transfer events and preserves the
descriptor's identity fields. -/
theorem max14906_reg_update_xfer_only (st : Drv) (a m v : Nat) :
    ∃ app, (max14906_reg_update st a m v).2.trace = st.trace ++ app ∧
      (∀ e ∈ app, ∃ msg, e = Ev.xfer msg) ∧
      (max14906_reg_update st a m v).2.chip_address = st.chip_address ∧
      (max14906_reg_update st a m v).2.crc_en = st.crc_en ∧
      (max14906_reg_update st a m v).2.enable = st.enable := by
  obtain ⟨app, ht, hf, _, hc, hcrc, he⟩ := max14906_reg_update_shape st a m v
  exact ⟨app, ht, fun e he' => ⟨(hf e he').choose, (hf e he').choose_spec.1⟩,
    hc, hcrc, he⟩

/-- `max14906_ch_func` appends only SPI-transfer events and preserves the
descriptor's identity fields. -/
theorem max14906_ch_func_props (st : Drv) (ch : Nat) (f : max14906_function) :
    ∃ app, (max14906_ch_func st ch f).2.trace = st.trace ++ app ∧
      (∀ e ∈ app, ∃ msg, e = Ev.xfer msg) ∧
      (max14906_ch_func st ch f).2.chip_address = st.chip_address ∧
      (max14906_ch_func st ch f).2.crc_en = st.crc_en ∧
      (max14906_ch_func st ch f).2.enable = st.enable := by
  have two : ∀ (a1 m1 v1 a2 m2 v2 : Nat),
      ∃ app,
        (if (max14906_reg_update st a1 m1 v1).1 ≠ 0 then
            max14906_reg_update st a1 m1 v1
          else
            max14906_reg_update (max14906_reg_update st a1 m1 v1).2 a2 m2
              v2).2.trace = st.trace ++ app ∧
        (∀ e ∈ app, ∃ msg, e = Ev.xfer msg) ∧
        (if (max14906_reg_update st a1 m1 v1).1 ≠ 0 then
            max14906_reg_update st a1 m1 v1
          else
            max14906_reg_update (max14906_reg_update st a1 m1 v1).2 a2 m2
              v2).2.chip_address = st.chip_address ∧
        (if (max14906_reg_update st a1 m1 v1).1 ≠ 0 then
            max14906_reg_update st a1 m1 v1
          else
            max14906_reg_update (max14906_reg_update st a1 m1 v1).2 a2 m2
              v2).2.crc_en = st.crc_en ∧
        (if (max14906_reg_update st a1 m1 v1).1 ≠ 0 then
            max14906_reg_update st a1 m1 v1
          else
            max14906_reg_update (max14906_reg_update st a1 m1 v1).2 a2 m2
              v2).2.enable = st.enable := by
    intro a1 m1 v1 a2 m2 v2
    obtain ⟨app1, h1t, h1f, h1c, h1crc, h1e⟩ :=
      max14906_reg_update_xfer_only st a1 m1 v1
    split
    case isTrue h => exact ⟨app1, h1t, h1f, h1c, h1crc, h1e⟩
    case isFalse h =>
      obtain ⟨app2, h2t, h2f, h2c, h2crc, h2e⟩ :=
        max14906_reg_update_xfer_only (max14906_reg_update st a1 m1 v1).2
          a2 m2 v2
      refine ⟨app1 ++ app2, ?_, ?_, ?_, ?_, ?_⟩
      · rw [h2t, h1t, List.append_assoc]
      · intro e he
        rcases List.mem_append.mp he with he | he
        · exact h1f e he
        · exact h2f e he
      · rw [h2c, h1c]
      · rw [h2crc, h1crc]
      · rw [h2e, h1e]
  cases f with
  | out =>
    rw [ch_func_out_eq]
    exact max14906_reg_update_xfer_only st _ _ _
  | high_z =>
    rw [ch_func_high_z_eq]
    exact two _ _ _ _ _ _
  | inp =>
    rw [ch_func_inp_eq]
    exact two _ _ _ _ _ _

/-- The init channel loop appends only SPI-transfer events. -/
theorem max14906_init_loop_props (l : List Nat) (st : Drv) :
    ∃ app, (max14906_init_loop st l).2.trace = st.trace ++ app ∧
      (∀ e ∈ app, ∃ msg, e = Ev.xfer msg) := by
  induction l generalizing st with
  | nil => exact ⟨[], by simp [max14906_init_loop], by simp⟩
  | cons ch rest ih =>
    obtain ⟨app1, h1t, h1f, _, _, _⟩ := max14906_ch_func_props st ch .high_z
    unfold max14906_init_loop
    dsimp only
    split
    case isTrue h => exact ⟨app1, h1t, h1f⟩
    case isFalse h =>
      obtain ⟨app2, h2t, h2f, _, _, _⟩ :=
        max14906_reg_update_xfer_only (max14906_ch_func st ch .high_z).2
          MAX14906_CONFIG_CURR_LIM (MAX14906_CL_MASK ch)
          (no_os_field_prep (MAX14906_CL_MASK ch) max14906_climit.cl_130.toNat)
      have h2t' : (max14906_climit_set (max14906_ch_func st ch .high_z).2 ch
          .cl_130).2.trace = st.trace ++ (app1 ++ app2) := by
        show (max14906_reg_update _ _ _ _).2.trace = _
        rw [h2t, h1t, List.append_assoc]
      split
      case isTrue h' =>
        refine ⟨app1 ++ app2, h2t', ?_⟩
        intro e he
        rcases List.mem_append.mp he with he | he
        · exact h1f e he
        · exact h2f e he
      case isFalse h' =>
        obtain ⟨app3, h3t, h3f⟩ :=
          ih (max14906_climit_set (max14906_ch_func st ch .high_z).2 ch
            .cl_130).2
        refine ⟨app1 ++ app2 ++ app3, ?_, ?_⟩
        · rw [h3t, h2t', List.append_assoc, List.append_assoc,
            ← List.append_assoc app1]
        · intro e he
          rcases List.mem_append.mp he with he | he
          · rcases List.mem_append.mp he with he | he
            · exact h1f e he
            · exact h2f e he
          · exact h3f e he

/-- The init tail appends no enable-GPIO drive event; whenever it fails it
leaves the caller's output pointer unwritten and its trace ends with the
`gpio_err` cleanup sequence (GPIO remove, SPI remove, free); whenever it
succeeds it hands back a descriptor. -/
theorem max14906_init_body_props (st : Drv) :
    ∃ app, (max14906_init_body st).2.2 = st.trace ++ app ∧
      (∀ v, Ev.gpioSetEv v ∉ app) ∧
      ((max14906_init_body st).1 ≠ 0 →
        (max14906_init_body st).2.1 = none ∧
        ∃ pre, (max14906_init_body st).2.2 =
          pre ++ [Ev.gpioRemoveEv, Ev.spiRemoveEv, Ev.freeEv]) ∧
      ((max14906_init_body st).1 = 0 →
        ∃ d, (max14906_init_body st).2.1 = some d) := by
  obtain ⟨h1t, _, _, _, _⟩ :=
    max14906_reg_read_props st MAX14906_OVR_LD_REG 0
  obtain ⟨h2t, _, _, _, _⟩ :=
    max14906_reg_read_props (max14906_reg_read st MAX14906_OVR_LD_REG 0).2
      MAX14906_OPN_WIR_FLT_REG 0
  obtain ⟨h3t, _, _, _, _⟩ :=
    max14906_reg_read_props
      (max14906_reg_read (max14906_reg_read st MAX14906_OVR_LD_REG 0).2
        MAX14906_OPN_WIR_FLT_REG 0).2 MAX14906_SHD_VDD_FLT_REG 0
  obtain ⟨h4t, _, _, _, _⟩ :=
    max14906_reg_read_props
      (max14906_reg_read
        (max14906_reg_read (max14906_reg_read st MAX14906_OVR_LD_REG 0).2
          MAX14906_OPN_WIR_FLT_REG 0).2 MAX14906_SHD_VDD_FLT_REG 0).2
      MAX14906_GLOBAL_FLT_REG 0
  obtain ⟨lapp, hlt, hlf⟩ :=
    max14906_init_loop_props (List.range MAX14906_CHANNELS)
      (max14906_reg_read
        (max14906_reg_read
          (max14906_reg_read (max14906_reg_read st MAX14906_OVR_LD_REG 0).2
            MAX14906_OPN_WIR_FLT_REG 0).2 MAX14906_SHD_VDD_FLT_REG 0).2
        MAX14906_GLOBAL_FLT_REG 0).2
  have hnx : ∀ (v : Nat) (l : List Ev), (∀ e ∈ l, ∃ msg, e = Ev.xfer msg) →
      Ev.gpioSetEv v ∉ l := by
    intro v l hl hmem
    obtain ⟨msg, hmsg⟩ := hl _ hmem
    cases hmsg
  unfold max14906_init_body
  dsimp only
  split
  case isTrue h =>
    refine ⟨[Ev.xfer (max14906_read_frame st MAX14906_OVR_LD_REG),
             Ev.gpioRemoveEv, Ev.spiRemoveEv, Ev.freeEv], ?_, ?_, ?_, ?_⟩
    · simp only [max14906_initFail]
      rw [h1t]
      simp
    · intro v
      simp
    · intro _
      exact ⟨rfl, _, rfl⟩
    · intro h0
      exact absurd h0 h
  case isFalse h1 =>
    split
    case isTrue h =>
      refine ⟨[Ev.xfer (max14906_read_frame st MAX14906_OVR_LD_REG),
               Ev.xfer (max14906_read_frame
                 (max14906_reg_read st MAX14906_OVR_LD_REG 0).2
                 MAX14906_OPN_WIR_FLT_REG),
               Ev.gpioRemoveEv, Ev.spiRemoveEv, Ev.freeEv], ?_, ?_, ?_, ?_⟩
      · simp only [max14906_initFail]
        rw [h2t, h1t]
        simp
      · intro v
        simp
      · intro _
        exact ⟨rfl, _, rfl⟩
      · intro h0
        exact absurd h0 h
    case isFalse h2 =>
      split
      case isTrue h =>
        refine ⟨[Ev.xfer (max14906_read_frame st MAX14906_OVR_LD_REG),
                 Ev.xfer (max14906_read_frame
                   (max14906_reg_read st MAX14906_OVR_LD_REG 0).2
                   MAX14906_OPN_WIR_FLT_REG),
                 Ev.xfer (max14906_read_frame
                   (max14906_reg_read
                     (max14906_reg_read st MAX14906_OVR_LD_REG 0).2
                     MAX14906_OPN_WIR_FLT_REG 0).2 MAX14906_SHD_VDD_FLT_REG),
                 Ev.gpioRemoveEv, Ev.spiRemoveEv, Ev.freeEv], ?_, ?_, ?_, ?_⟩
        · simp only [max14906_initFail]
          rw [h3t, h2t, h1t]
          simp
        · intro v
          simp
        · intro _
          exact ⟨rfl, _, rfl⟩
        · intro h0
          exact absurd h0 h
      case isFalse h3 =>
        split
        case isTrue h =>
          refine ⟨[Ev.xfer (max14906_read_frame st MAX14906_OVR_LD_REG),
                   Ev.xfer (max14906_read_frame
                     (max14906_reg_read st MAX14906_OVR_LD_REG 0).2
                     MAX14906_OPN_WIR_FLT_REG),
                   Ev.xfer (max14906_read_frame
                     (max14906_reg_read
                       (max14906_reg_read st MAX14906_OVR_LD_REG 0).2
                       MAX14906_OPN_WIR_FLT_REG 0).2 MAX14906_SHD_VDD_FLT_REG),
                   Ev.xfer (max14906_read_frame
                     (max14906_reg_read
                       (max14906_reg_read
                         (max14906_reg_read st MAX14906_OVR_LD_REG 0).2
                         MAX14906_OPN_WIR_FLT_REG 0).2
                       MAX14906_SHD_VDD_FLT_REG 0).2 MAX14906_GLOBAL_FLT_REG),
                   Ev.gpioRemoveEv, Ev.spiRemoveEv, Ev.freeEv], ?_, ?_, ?_, ?_⟩
          · simp only [max14906_initFail]
            rw [h4t, h3t, h2t, h1t]
            simp
          · intro v
            simp
          · intro _
            exact ⟨rfl, _, rfl⟩
          · intro h0
            exact absurd h0 h
        case isFalse h4 =>
          split
          case isTrue h =>
            refine ⟨[Ev.xfer (max14906_read_frame st MAX14906_OVR_LD_REG),
                     Ev.xfer (max14906_read_frame
                       (max14906_reg_read st MAX14906_OVR_LD_REG 0).2
                       MAX14906_OPN_WIR_FLT_REG),
                     Ev.xfer (max14906_read_frame
                       (max14906_reg_read
                         (max14906_reg_read st MAX14906_OVR_LD_REG 0).2
                         MAX14906_OPN_WIR_FLT_REG 0).2 MAX14906_SHD_VDD_FLT_REG),
                     Ev.xfer (max14906_read_frame
                       (max14906_reg_read
                         (max14906_reg_read
                           (max14906_reg_read st MAX14906_OVR_LD_REG 0).2
                           MAX14906_OPN_WIR_FLT_REG 0).2
                         MAX14906_SHD_VDD_FLT_REG 0).2 MAX14906_GLOBAL_FLT_REG)]
                     ++ lapp ++ [Ev.gpioRemoveEv, Ev.spiRemoveEv, Ev.freeEv],
                    ?_, ?_, ?_, ?_⟩
            · simp only [max14906_initFail]
              rw [hlt, h4t, h3t, h2t, h1t]
              simp
            · intro v hv
              rcases List.mem_append.mp hv with hv | hv
              · rcases List.mem_append.mp hv with hv | hv
                · simp at hv
                · exact hnx v lapp hlf hv
              · simp at hv
            · intro _
              exact ⟨rfl, _, rfl⟩
            · intro h0
              exact absurd h0 h
          case isFalse h5 =>
            refine ⟨[Ev.xfer (max14906_read_frame st MAX14906_OVR_LD_REG),
                     Ev.xfer (max14906_read_frame
                       (max14906_reg_read st MAX14906_OVR_LD_REG 0).2
                       MAX14906_OPN_WIR_FLT_REG),
                     Ev.xfer (max14906_read_frame
                       (max14906_reg_read
                         (max14906_reg_read st MAX14906_OVR_LD_REG 0).2
                         MAX14906_OPN_WIR_FLT_REG 0).2 MAX14906_SHD_VDD_FLT_REG),
                     Ev.xfer (max14906_read_frame
                       (max14906_reg_read
                         (max14906_reg_read
                           (max14906_reg_read st MAX14906_OVR_LD_REG 0).2
                           MAX14906_OPN_WIR_FLT_REG 0).2
                         MAX14906_SHD_VDD_FLT_REG 0).2 MAX14906_GLOBAL_FLT_REG)]
                     ++ lapp, ?_, ?_, ?_, ?_⟩
            · rw [hlt, h4t, h3t, h2t, h1t]
              simp
            · intro v hv
              rcases List.mem_append.mp hv with hv | hv
              · simp at hv
              · exact hnx v lapp hlf hv
            · intro h0
              exact absurd rfl h0
            · intro _
              exact ⟨_, rfl⟩

/-- Claim C8: whenever `max14906_init` fails, the caller's descriptor output
pointer is never written; and whenever it fails after the SPI transport was
acquired, the trace ends with removing the enable GPIO, then removing the
SPI transport, then freeing the descriptor. -/
theorem c8_init_failure_cleanup (env : InitEnv) :
    ((max14906_init env).1 ≠ 0 → (max14906_init env).2.1 = none) ∧
    (env.callocOk → env.spiInitRet = 0 → (max14906_init env).1 ≠ 0 →
      ∃ pre, (max14906_init env).2.2 =
        pre ++ [Ev.gpioRemoveEv, Ev.spiRemoveEv, Ev.freeEv]) := by
  unfold max14906_init
  dsimp only
  split
  case isTrue h =>
    exact ⟨fun _ => rfl, fun hc => absurd hc h⟩
  case isFalse h =>
    split
    case isTrue h2 =>
      exact ⟨fun _ => rfl, fun _ hs => absurd hs h2⟩
    case isFalse h2 =>
      split
      case isTrue h3 =>
        split
        case isTrue h4 =>
          exact ⟨fun _ => rfl, fun _ _ _ => ⟨_, rfl⟩⟩
        case isFalse h4 =>
          constructor
          · intro hne
            exact ((max14906_init_body_props _).choose_spec.2.2.1 hne).1
          · intro _ _ hne
            exact ((max14906_init_body_props _).choose_spec.2.2.1 hne).2
      case isFalse h3 =>
        constructor
        · intro hne
          exact ((max14906_init_body_props _).choose_spec.2.2.1 hne).1
        · intro _ _ hne
          exact ((max14906_init_body_props _).choose_spec.2.2.1 hne).2

/-- Claim C9: `max14906_remove` on a null descriptor returns `-ENODEV` with
an empty event trace — no channel reconfiguration, transfer, GPIO access or
deallocation. -/
theorem c9_remove_null (r g : Int) :
    max14906_remove none r g = (-ENODEV, []) := rfl

/-- Claim C10: if acquiring the optional enable GPIO fails, `max14906_init`
discards the error and continues exactly as the post-GPIO body with a null
enable handle — fault-register clearing and channel configuration included —
and never drives the enable line, so a GPIO acquisition failure alone cannot
make init fail (the witness shows such an init returning 0). -/
theorem c10_gpio_optional_failure_ignored (env : InitEnv)
    (h1 : env.callocOk = true) (h2 : env.spiInitRet = 0)
    (h3 : env.gpioGetRet ≠ 0) :
    max14906_init env =
      max14906_init_body
        { crc_en := env.crcEn, chip_address := env.chipAddr, buff := ⟨0, 0, 0⟩
          enable := false, tp := env.tp
          trace := [Ev.spiInitEv, Ev.gpioGetEv] } ∧
    ∀ v, Ev.gpioSetEv v ∉ (max14906_init env).2.2 := by
  have heq : max14906_init env =
      max14906_init_body
        { crc_en := env.crcEn, chip_address := env.chipAddr, buff := ⟨0, 0, 0⟩
          enable := false, tp := env.tp
          trace := [Ev.spiInitEv, Ev.gpioGetEv] } := by
    unfold max14906_init
    rw [if_neg (by simp [h1]), if_neg (by simp [h2]), if_neg h3]
  refine ⟨heq, ?_⟩
  intro v hv
  rw [heq] at hv
  obtain ⟨app, ht, hnot, _, _⟩ := max14906_init_body_props
    { crc_en := env.crcEn, chip_address := env.chipAddr, buff := ⟨0, 0, 0⟩
      enable := false, tp := env.tp
      trace := [Ev.spiInitEv, Ev.gpioGetEv] }
  rw [ht] at hv
  rcases List.mem_append.mp hv with hv | hv
  · simp at hv
  · exact hnot v hv

/-- An init environment whose enable-GPIO drive fails with `-7` after the
transport was acquired. -/
def envW8 : InitEnv :=
  { callocOk := true, spiInitRet := 0, crcEn := false, chipAddr := 0
    gpioGetRet := 0, gpioNonNull := true, gpioSetRet := -7
    tp := .regfile (List.replicate 16 0) }

/-- Claim C8, witness: the failing-enable-drive init returns its error,
never writes the caller's pointer, and ends with the cleanup sequence. -/
theorem c8_init_failure_cleanup_witness :
    envW8.callocOk ∧ envW8.spiInitRet = 0 ∧ (max14906_init envW8).1 ≠ 0 ∧
    (max14906_init envW8).2.1 = none ∧
    ∃ pre, (max14906_init envW8).2.2 =
      pre ++ [Ev.gpioRemoveEv, Ev.spiRemoveEv, Ev.freeEv] :=
  ⟨by decide, by decide, by decide,
   (c8_init_failure_cleanup envW8).1 (by decide),
   (c8_init_failure_cleanup envW8).2 (by decide) (by decide) (by decide)⟩

/-- An init environment whose optional enable-GPIO acquisition fails with
`-22` while everything else succeeds. -/
def envW10 : InitEnv :=
  { callocOk := true, spiInitRet := 0, crcEn := false, chipAddr := 0
    gpioGetRet := -22, gpioNonNull := false, gpioSetRet := 0
    tp := .regfile (List.replicate 16 0) }

/-- Claim C10, witness: with a failing GPIO acquisition, init continues into
the body as if no enable line existed and still returns 0. -/
theorem c10_gpio_optional_failure_ignored_witness :
    max14906_init envW10 =
      max14906_init_body
        { crc_en := envW10.crcEn, chip_address := envW10.chipAddr
          buff := ⟨0, 0, 0⟩, enable := false, tp := envW10.tp
          trace := [Ev.spiInitEv, Ev.gpioGetEv] } ∧
    (max14906_init envW10).1 = 0 :=
  ⟨(c10_gpio_optional_failure_ignored envW10 (by decide) (by decide)
      (by decide)).1,
   by decide⟩

/-- Claim C7, witness: the CRC-off honest-transport init succeeds and channel
0 reads back the minimum current limit. -/
theorem c7_init_defaults_witness :
    (max14906_init (initEnvHonest false)).1 = 0 ∧
    (max14906_climit_get (initFinalSt false) 0 false 0).1 =
      (0, max14906_climit.cl_130.toNat) :=
  ⟨(c7_init_defaults false).1,
   ((c7_init_defaults false).2.2.2.2.2 0 (by decide)).1⟩
